import Mathlib

/-!
Shallow embedding of the scoring core of `seo_tool.py` (a single-file SEO
analyzer).  Pure Python functions become Lean functions; Python strings are
`String` (lists of Unicode code points, matching Python `len`/indexing);
Python dicts with fixed keys become structures; Python exceptions become
`Except`.  Python float arithmetic in the semantic scorer is idealized as
exact rational arithmetic (`ℚ`), and Python `round` (round-half-to-even;
exact here because a sum of four small ints divided by 4 is an exact dyadic
float) is embedded as explicit half-to-even rounding.
-/

/-- The dict returned by `extract_meta`:
`{"title": ..., "description": ..., "canonical": ..., "viewport": ...}`. -/
structure PageMeta where
  title : String
  description : String
  canonical : String
  viewport : String
deriving DecidableEq, Repr

/-- The dict returned by `get_headings`: heading texts for h1/h2/h3. -/
structure HeadingInv where
  h1 : List String
  h2 : List String
  h3 : List String
deriving DecidableEq, Repr

/-- One roadmap entry `{"fix": ..., "boost": ...}`. -/
structure Improvement where
  fix : String
  boost : Nat
deriving DecidableEq, Repr

/-- `calculate_onpage_score(meta, headings, total_words)` from seo_tool.py
lines 88-123: five checks, each worth 20 points; a failing check appends one
suggestion string and one improvement entry with boost 10.  The Python
accumulator triple (score, suggestions, improvements) is threaded through
the five `if`/`else` blocks in source order. -/
def calculate_onpage_score (meta : PageMeta) (headings : HeadingInv)
    (total_words : Nat) : Nat × List String × List Improvement :=
  let acc0 : Nat × List String × List Improvement := (0, [], [])
  let acc1 :=
    if 10 ≤ meta.title.length ∧ meta.title.length ≤ 60 then
      (acc0.1 + 20, acc0.2.1, acc0.2.2)
    else
      (acc0.1, acc0.2.1 ++ ["Title length should be 10-60 characters"],
       acc0.2.2 ++ [⟨"<title>Your Page Title</title>", 10⟩])
  let acc2 :=
    if 50 ≤ meta.description.length ∧ meta.description.length ≤ 160 then
      (acc1.1 + 20, acc1.2.1, acc1.2.2)
    else
      (acc1.1, acc1.2.1 ++ ["Meta description should be 50-160 characters"],
       acc1.2.2 ++
        [⟨"<meta name=\"description\" content=\"Your meta description here\">", 10⟩])
  let acc3 :=
    if 1 ≤ headings.h1.length then
      (acc2.1 + 20, acc2.2.1, acc2.2.2)
    else
      (acc2.1, acc2.2.1 ++ ["Add at least one H1 heading"],
       acc2.2.2 ++ [⟨"<h1>Your Main Heading</h1>", 10⟩])
  let acc4 :=
    if 300 ≤ total_words then
      (acc3.1 + 20, acc3.2.1, acc3.2.2)
    else
      (acc3.1, acc3.2.1 ++ ["Add more content (min 300 words)"],
       acc3.2.2 ++ [⟨"Add high-quality content relevant to your topic", 10⟩])
  let acc5 :=
    if meta.canonical ≠ "" then
      (acc4.1 + 20, acc4.2.1, acc4.2.2)
    else
      (acc4.1, acc4.2.1 ++ ["Add a canonical tag"],
       acc4.2.2 ++
        [⟨"<link rel=\"canonical\" href=\"https://yourwebsite.com/page-url\">", 10⟩])
  acc5

/-- Claim C1: `calculate_onpage_score` awards 20 points for each passing
check among exactly the five checks (title length in [10,60], description
length in [50,160], at least one H1, total words at least 300, canonical
non-empty); each failing check contributes 0 points and appends exactly one
suggestion string. -/
theorem onpage_score_five_checks (meta : PageMeta) (headings : HeadingInv)
    (total_words : Nat) :
    (calculate_onpage_score meta headings total_words).1 =
      (if 10 ≤ meta.title.length ∧ meta.title.length ≤ 60 then 20 else 0)
      + (if 50 ≤ meta.description.length ∧ meta.description.length ≤ 160 then 20 else 0)
      + (if 1 ≤ headings.h1.length then 20 else 0)
      + (if 300 ≤ total_words then 20 else 0)
      + (if meta.canonical ≠ "" then 20 else 0)
    ∧ (calculate_onpage_score meta headings total_words).2.1 =
      (if 10 ≤ meta.title.length ∧ meta.title.length ≤ 60 then []
       else ["Title length should be 10-60 characters"])
      ++ (if 50 ≤ meta.description.length ∧ meta.description.length ≤ 160 then []
          else ["Meta description should be 50-160 characters"])
      ++ (if 1 ≤ headings.h1.length then [] else ["Add at least one H1 heading"])
      ++ (if 300 ≤ total_words then [] else ["Add more content (min 300 words)"])
      ++ (if meta.canonical ≠ "" then [] else ["Add a canonical tag"]) := by
  unfold calculate_onpage_score
  split_ifs <;> simp

/-- Claim C10: for every input, the on-page score equals 100 minus 20 times
the number of suggestions, the improvements list is exactly as long as the
suggestions list, and every improvement carries boost 10. -/
theorem onpage_score_suggestion_invariant (meta : PageMeta)
    (headings : HeadingInv) (total_words : Nat) :
    (calculate_onpage_score meta headings total_words).1 =
      100 - 20 * (calculate_onpage_score meta headings total_words).2.1.length
    ∧ (calculate_onpage_score meta headings total_words).2.2.length =
      (calculate_onpage_score meta headings total_words).2.1.length
    ∧ (calculate_onpage_score meta headings total_words).2.2.map Improvement.boost =
      List.replicate (calculate_onpage_score meta headings total_words).2.1.length 10 := by
  unfold calculate_onpage_score
  split_ifs <;> simp [List.replicate]

/-- Python `round` applied to `s/4` where `s` is a nonnegative int.  The
float division is exact (a dyadic rational with tiny magnitude), so Python's
round-half-to-even on the float equals exact half-to-even rounding of the
rational s/4: quarters 0 and 1 round down, quarter 3 rounds up, quarter 2 is
a tie broken toward the even neighbour. -/
def pyRoundQuarter (s : Nat) : Nat :=
  if s % 4 = 3 ∨ (s % 4 = 2 ∧ (s / 4) % 2 = 1) then s / 4 + 1 else s / 4

/-- `overall_score = round((onpage_score + technical_score + offpage_score
+ semantic_score)/4)` from seo_tool.py line 217. -/
def overall_score (onpage technical offpage semantic : Nat) : Nat :=
  pyRoundQuarter (onpage + technical + offpage + semantic)

theorem pyRoundQuarter_spec (s : Nat) :
    |(pyRoundQuarter s : ℚ) - (s : ℚ) / 4| ≤ 1 / 2
    ∧ (|(pyRoundQuarter s : ℚ) - (s : ℚ) / 4| = 1 / 2 → pyRoundQuarter s % 2 = 0) := by
  have hdm : 4 * (s / 4) + s % 4 = s := Nat.div_add_mod s 4
  have hsq : (s : ℚ) = 4 * (s / 4 : Nat) + (s % 4 : Nat) := by exact_mod_cast hdm.symm
  have hr : s % 4 = 0 ∨ s % 4 = 1 ∨ s % 4 = 2 ∨ s % 4 = 3 := by omega
  rcases hr with h | h | h | h
  · have hv : pyRoundQuarter s = s / 4 := by simp [pyRoundQuarter, h]
    have hd : (pyRoundQuarter s : ℚ) - (s : ℚ) / 4 = 0 := by
      rw [hv, hsq, h]; push_cast; ring
    rw [hd]; norm_num
  · have hv : pyRoundQuarter s = s / 4 := by simp [pyRoundQuarter, h]
    have hd : (pyRoundQuarter s : ℚ) - (s : ℚ) / 4 = -(1 / 4) := by
      rw [hv, hsq, h]; push_cast; ring
    rw [hd, abs_neg, abs_of_nonneg (by norm_num : (0 : ℚ) ≤ 1 / 4)]
    exact ⟨by norm_num, fun hcon => absurd hcon (by norm_num)⟩
  · rcases Nat.even_or_odd (s / 4) with hq | hq
    · have hq0 : (s / 4) % 2 = 0 := Nat.even_iff.mp hq
      have hv : pyRoundQuarter s = s / 4 := by simp [pyRoundQuarter, h, hq0]
      have hd : (pyRoundQuarter s : ℚ) - (s : ℚ) / 4 = -(1 / 2) := by
        rw [hv, hsq, h]; push_cast; ring
      rw [hd, hv, abs_neg, abs_of_nonneg (by norm_num : (0 : ℚ) ≤ 1 / 2)]
      exact ⟨le_refl _, fun _ => hq0⟩
    · have hq1 : (s / 4) % 2 = 1 := Nat.odd_iff.mp hq
      have hv : pyRoundQuarter s = s / 4 + 1 := by simp [pyRoundQuarter, h, hq1]
      have hd : (pyRoundQuarter s : ℚ) - (s : ℚ) / 4 = 1 / 2 := by
        rw [hv, hsq, h]; push_cast; ring
      rw [hd, hv, abs_of_nonneg (by norm_num : (0 : ℚ) ≤ 1 / 2)]
      exact ⟨le_refl _, fun _ => by omega⟩
  · have hv : pyRoundQuarter s = s / 4 + 1 := by simp [pyRoundQuarter, h]
    have hd : (pyRoundQuarter s : ℚ) - (s : ℚ) / 4 = 1 / 4 := by
      rw [hv, hsq, h]; push_cast; ring
    rw [hd, abs_of_nonneg (by norm_num : (0 : ℚ) ≤ 1 / 4)]
    exact ⟨by norm_num, fun hcon => absurd hcon (by norm_num)⟩

/-- Claim C2: the overall score is the mean of the four category scores
rounded half-to-even (distance to the mean at most 1/2, and at an exact tie
the result is even), with no weighting between categories (the result is
invariant under permuting the four scores, witnessed on the adjacent
transpositions that generate all permutations). -/
theorem overall_score_round_half_even (a b c d : Nat) :
    |(overall_score a b c d : ℚ) - ((a : ℚ) + b + c + d) / 4| ≤ 1 / 2
    ∧ (|(overall_score a b c d : ℚ) - ((a : ℚ) + b + c + d) / 4| = 1 / 2 →
        overall_score a b c d % 2 = 0)
    ∧ overall_score a b c d = overall_score b a c d
    ∧ overall_score a b c d = overall_score a c b d
    ∧ overall_score a b c d = overall_score a b d c := by
  have hs : ((a + b + c + d : Nat) : ℚ) = (a : ℚ) + b + c + d := by push_cast; ring
  obtain ⟨h1, h2⟩ := pyRoundQuarter_spec (a + b + c + d)
  rw [hs] at h1 h2
  refine ⟨h1, h2, ?_, ?_, ?_⟩ <;>
    · unfold overall_score
      congr 1
      omega

/-- Witness for claim C2: at scores (2,0,0,0) the mean is 1/2, an exact tie,
and the overall score 0 is even. -/
theorem overall_score_round_half_even_witness :
    |(overall_score 2 0 0 0 : ℚ) - ((2 : ℚ) + 0 + 0 + 0) / 4| = 1 / 2
    ∧ overall_score 2 0 0 0 % 2 = 0 := by
  have h := (overall_score_round_half_even 2 0 0 0).2.1
  have htie : |(overall_score 2 0 0 0 : ℚ) - ((2 : ℚ) + 0 + 0 + 0) / 4| = 1 / 2 := by
    norm_num [overall_score, pyRoundQuarter]
  exact ⟨htie, h htie⟩

/-- `estimate_serp_rank(overall_score)` from seo_tool.py lines 188-193. -/
def estimate_serp_rank (score : Int) : String :=
  if score ≥ 90 then "Estimated SERP Rank: 1-3"
  else if score ≥ 80 then "Estimated SERP Rank: 4-10"
  else if score ≥ 70 then "Estimated SERP Rank: 11-20"
  else if score ≥ 60 then "Estimated SERP Rank: 21-50"
  else "Estimated SERP Rank: 50+"

/-- Counterexample to claim C3 as stated: `estimate_serp_rank 90` is the
string "Estimated SERP Rank: 1-3", not exactly the string "1-3". -/
theorem estimate_serp_rank_not_bare_label :
    estimate_serp_rank 90 = "Estimated SERP Rank: 1-3"
    ∧ estimate_serp_rank 90 ≠ "1-3" := by
  constructor
  · rfl
  · decide

/-- Claim C3 (amended): `estimate_serp_rank` is a step function with
inclusive lower bounds, returning "Estimated SERP Rank: 1-3" exactly for
scores at least 90, "Estimated SERP Rank: 4-10" exactly on [80,89],
"Estimated SERP Rank: 11-20" exactly on [70,79], "Estimated SERP Rank:
21-50" exactly on [60,69], and "Estimated SERP Rank: 50+" exactly for
scores at most 59. -/
theorem estimate_serp_rank_buckets (score : Int) :
    (estimate_serp_rank score = "Estimated SERP Rank: 1-3" ↔ 90 ≤ score)
    ∧ (estimate_serp_rank score = "Estimated SERP Rank: 4-10" ↔ 80 ≤ score ∧ score ≤ 89)
    ∧ (estimate_serp_rank score = "Estimated SERP Rank: 11-20" ↔ 70 ≤ score ∧ score ≤ 79)
    ∧ (estimate_serp_rank score = "Estimated SERP Rank: 21-50" ↔ 60 ≤ score ∧ score ≤ 69)
    ∧ (estimate_serp_rank score = "Estimated SERP Rank: 50+" ↔ score ≤ 59) := by
  unfold estimate_serp_rank
  split_ifs with h1 h2 h3 h4 <;>
    refine ⟨⟨fun he => ?_, fun hc => ?_⟩, ⟨fun he => ?_, fun hc => ?_⟩,
      ⟨fun he => ?_, fun hc => ?_⟩, ⟨fun he => ?_, fun hc => ?_⟩,
      ⟨fun he => ?_, fun hc => ?_⟩⟩ <;>
    first
      | rfl
      | omega
      | exact absurd he (by decide)

/-- Height of a rank bucket string in the ordering
"50+" < "21-50" < "11-20" < "4-10" < "1-3" (in the strings actually
returned by `estimate_serp_rank`); any other string sits at the bottom. -/
def bucketLevel (s : String) : Nat :=
  if s = "Estimated SERP Rank: 1-3" then 4
  else if s = "Estimated SERP Rank: 4-10" then 3
  else if s = "Estimated SERP Rank: 11-20" then 2
  else if s = "Estimated SERP Rank: 21-50" then 1
  else 0

theorem bucketLevel_estimate (x : Int) :
    bucketLevel (estimate_serp_rank x) =
      if x ≥ 90 then 4 else if x ≥ 80 then 3 else if x ≥ 70 then 2
      else if x ≥ 60 then 1 else 0 := by
  unfold estimate_serp_rank
  split_ifs <;> decide

/-- Claim C7: the rank-bucket mapping is monotone non-decreasing in the
overall score, with buckets ordered "50+" < "21-50" < "11-20" < "4-10" <
"1-3". -/
theorem estimate_serp_rank_monotone (a b : Int) (hab : a ≤ b) :
    bucketLevel (estimate_serp_rank a) ≤ bucketLevel (estimate_serp_rank b) := by
  rw [bucketLevel_estimate, bucketLevel_estimate]
  split_ifs <;> omega

/-- Witness for claim C7 at the concrete pair 59 ≤ 90. -/
theorem estimate_serp_rank_monotone_witness :
    (59 : Int) ≤ 90
    ∧ bucketLevel (estimate_serp_rank 59) ≤ bucketLevel (estimate_serp_rank 90) :=
  ⟨by norm_num, estimate_serp_rank_monotone 59 90 (by norm_num)⟩

/-- Python `str.lower()` as a per-code-point map (faithful on the ASCII
data these scorers compare). -/
def pyLower (s : List Char) : List Char := s.map Char.toLower

/-- Python substring membership `needle in hay` on code-point lists: true
iff the needle occurs contiguously somewhere in the hay (the empty needle
is in every string). -/
def listContainsSub : List Char → List Char → Bool
  | [], needle => needle.isEmpty
  | c :: t, needle => needle.isPrefixOf (c :: t) || listContainsSub t needle

/-- `calculate_technical_score(robots, sitemap, viewport, soup)` from
seo_tool.py lines 125-162.  The `soup.find_all("script",
type="application/ld+json")` presence test is passed in as the boolean
`schema_found`; the multi-line JSON-LD sample in the schema improvement
entry is abbreviated to a short placeholder string (no claim mentions its
text).  The robots/sitemap checks are Python's
`"not available" not in artifact.lower()`. -/
def calculate_technical_score (robots sitemap viewport : String)
    (schema_found : Bool) : Nat × List String × List Improvement :=
  let acc0 : Nat × List String × List Improvement := (0, [], [])
  let acc1 :=
    if listContainsSub (pyLower robots.toList) ("not available".toList) = false then
      (acc0.1 + 30, acc0.2.1, acc0.2.2)
    else
      (acc0.1, acc0.2.1 ++ ["Add robots.txt"],
       acc0.2.2 ++ [⟨"Create a robots.txt file in root directory with rules", 15⟩])
  let acc2 :=
    if listContainsSub (pyLower sitemap.toList) ("not available".toList) = false then
      (acc1.1 + 30, acc1.2.1, acc1.2.2)
    else
      (acc1.1, acc1.2.1 ++ ["Add sitemap.xml"],
       acc1.2.2 ++ [⟨"Generate sitemap.xml and submit to Google Search Console", 15⟩])
  let acc3 :=
    if viewport ≠ "" then
      (acc2.1 + 20, acc2.2.1, acc2.2.2)
    else
      (acc2.1, acc2.2.1 ++ ["Add viewport meta for mobile-friendliness"],
       acc2.2.2 ++
        [⟨"<meta name=\"viewport\" content=\"width=device-width, initial-scale=1.0\">", 10⟩])
  let acc4 :=
    if schema_found then
      (acc3.1 + 20, acc3.2.1, acc3.2.2)
    else
      (acc3.1, acc3.2.1 ++ ["Add structured data / schema (JSON-LD recommended)"],
       acc3.2.2 ++ [⟨"Add a JSON-LD structured data script", 10⟩])
  acc4

/-- Counterexample to claim C4 as stated: robots content that differs from
the sentinel "robots.txt not available" in every letter case but happens to
contain the words "not available" still loses the 30-point robots bucket
(total here is 70, not 100), because the code tests substring containment,
not equality with the sentinel. -/
theorem technical_score_substring_counterexample :
    (calculate_technical_score "User-agent: * (service not available)" "ok" "w" true).1 = 70
    ∧ pyLower "User-agent: * (service not available)".toList ≠
        "robots.txt not available".toList := by
  constructor
  · decide
  · decide

/-- Claim C4 (amended): the 30-point robots bucket is awarded iff the
lowercased robots text does not contain "not available" as a substring —
so it is not awarded for the sentinel "robots.txt not available" in any
letter case, but also not for any other content containing those words;
content without that substring is awarded regardless of robots.txt
validity.  The sitemap bucket behaves symmetrically with its sentinel
"sitemap.xml not available". -/
theorem technical_score_sentinel_substring (robots sitemap viewport : String)
    (schema_found : Bool) :
    (calculate_technical_score robots sitemap viewport schema_found).1 =
      (if listContainsSub (pyLower robots.toList) ("not available".toList) = false
        then 30 else 0)
      + (if listContainsSub (pyLower sitemap.toList) ("not available".toList) = false
          then 30 else 0)
      + (if viewport ≠ "" then 20 else 0)
      + (if schema_found then 20 else 0)
    ∧ (pyLower robots.toList = "robots.txt not available".toList →
        (calculate_technical_score robots sitemap viewport schema_found).1 ≤ 70)
    ∧ (pyLower sitemap.toList = "sitemap.xml not available".toList →
        (calculate_technical_score robots sitemap viewport schema_found).1 ≤ 70) := by
  have heq : (calculate_technical_score robots sitemap viewport schema_found).1 =
      (if listContainsSub (pyLower robots.toList) ("not available".toList) = false
        then 30 else 0)
      + (if listContainsSub (pyLower sitemap.toList) ("not available".toList) = false
          then 30 else 0)
      + (if viewport ≠ "" then 20 else 0)
      + (if schema_found then 20 else 0) := by
    unfold calculate_technical_score
    split_ifs <;> norm_num
  refine ⟨heq, fun h => ?_, fun h => ?_⟩
  · have hc : listContainsSub (pyLower robots.toList) ("not available".toList) = true := by
      rw [h]; decide
    rw [heq, hc]
    simp only [Bool.true_eq_false, if_false]
    split_ifs <;> omega
  · have hc : listContainsSub (pyLower sitemap.toList) ("not available".toList) = true := by
      rw [h]; decide
    rw [heq, hc]
    simp only [Bool.true_eq_false, if_false]
    split_ifs <;> omega

/-- Witness for claim C4 (amended): the sentinel typed in upper case
lowercases to the sentinel and loses the robots bucket. -/
theorem technical_score_sentinel_substring_witness :
    pyLower "ROBOTS.TXT NOT AVAILABLE".toList = "robots.txt not available".toList
    ∧ (calculate_technical_score "ROBOTS.TXT NOT AVAILABLE" "ok" "w" true).1 ≤ 70 :=
  ⟨by decide,
   (technical_score_sentinel_substring "ROBOTS.TXT NOT AVAILABLE" "ok" "w" true).2.1
     (by decide)⟩

/-- `calculate_offpage_score()` from seo_tool.py lines 164-168: a constant
placeholder category. -/
def calculate_offpage_score : Nat × List String × List Improvement :=
  (50, ["Check backlinks and domain authority"],
   [⟨"Acquire high-quality backlinks from authoritative sites", 20⟩])

/-- Count of non-overlapping occurrences of a nonempty needle, scanning
left to right and skipping over each match, exactly as Python `str.count`
does. -/
def pyCountPos : List Char → List Char → Nat
  | _, [] => 0
  | [], _ :: _ => 0
  | c :: t, n :: ns =>
    if (n :: ns).isPrefixOf (c :: t) then 1 + pyCountPos (t.drop ns.length) (n :: ns)
    else pyCountPos t (n :: ns)
termination_by hay _ => hay.length
decreasing_by
  · simp [List.length_drop]; omega
  · simp

/-- Python `hay.count(needle)`: for the empty needle Python counts
`len(hay) + 1` occurrences; otherwise non-overlapping left-to-right
matches. -/
def pyCount (hay needle : List Char) : Nat :=
  match needle with
  | [] => hay.length + 1
  | _ :: _ => pyCountPos hay needle

/-- Token counter for Python `len(text.split())`: `split()` with no
arguments splits on runs of whitespace and drops leading/trailing
whitespace, so the length is the number of maximal non-whitespace runs.
The flag records whether the scan is inside such a run. -/
def wordCountAux : List Char → Bool → Nat
  | [], _ => 0
  | c :: t, inWord =>
    if c.isWhitespace then wordCountAux t false
    else (if inWord then 0 else 1) + wordCountAux t true

/-- `len(text.split())` from seo_tool.py line 172. -/
def wordCount (s : List Char) : Nat := wordCountAux s false

/-- `text.lower().count(main_keyword.lower())` from seo_tool.py line 171. -/
def keyword_count (text main_keyword : String) : Nat :=
  pyCount (pyLower text.toList) (pyLower main_keyword.toList)

/-- `density = (keyword_count / total_words) * 100 if total_words else 0`
from seo_tool.py line 173, with the Python float arithmetic idealized as
exact rational arithmetic. -/
def density (text main_keyword : String) : ℚ :=
  if wordCount text.toList ≠ 0 then
    ((keyword_count text main_keyword : ℚ) / (wordCount text.toList : ℚ)) * 100
  else 0

/-- `calculate_semantic_score(text, main_keyword)` from seo_tool.py lines
170-185.  `score = min(100, density * 2)` and the returned `int(score)`
truncates toward zero, which for this nonnegative score is the floor.  The
suggestion strings are abbreviated: the source interpolates the keyword and
the density formatted to two decimals into f-strings (and quotes the
keyword); no claim depends on that text, so the numeric interpolation and
the quoting are elided here. -/
def calculate_semantic_score (text main_keyword : String) :
    Int × List String × List Improvement :=
  let d := density text main_keyword
  let score : ℚ := min 100 (d * 2)
  let suggestions : List String :=
    if d < 1 then ["Use keyword " ++ main_keyword ++ " more frequently"]
    else if d > 5 then ["Keyword " ++ main_keyword ++ " density too high"]
    else []
  let improvements : List Improvement :=
    if d < 1 then
      [⟨"Include " ++ main_keyword ++ " in H1, H2, meta description, first paragraph", 10⟩]
    else if d > 5 then [⟨"Reduce keyword stuffing, use synonyms/LSI keywords", 5⟩]
    else []
  (Int.floor score, suggestions, improvements)

theorem density_eq_claim_form (text main_keyword : String) :
    density text main_keyword =
      if wordCount text.toList = 0 then (0 : ℚ)
      else (pyCount (pyLower text.toList) (pyLower main_keyword.toList) : ℚ)
        / (wordCount text.toList : ℚ) * 100 := by
  unfold density keyword_count
  split_ifs <;> first | rfl | omega

/-- Claim C5: the semantic score is min(100, density * 2) truncated to an
integer, where density is the non-overlapping case-insensitive occurrence
count of the keyword divided by the whitespace-delimited token count of the
text, times 100, and 0 when the token count is 0; the zero-word case
returns score 0 (the embedding is total, so no division-by-zero error can
occur). -/
theorem semantic_score_formula (text main_keyword : String) :
    (calculate_semantic_score text main_keyword).1 =
      Int.floor (min (100 : ℚ)
        ((if wordCount text.toList = 0 then (0 : ℚ)
          else (pyCount (pyLower text.toList) (pyLower main_keyword.toList) : ℚ)
            / (wordCount text.toList : ℚ) * 100) * 2))
    ∧ (wordCount text.toList = 0 → (calculate_semantic_score text main_keyword).1 = 0) := by
  constructor
  · simp only [calculate_semantic_score]
    rw [density_eq_claim_form]
  · intro h0
    have hd : density text main_keyword = 0 := by
      rw [density_eq_claim_form, if_pos h0]
    simp [calculate_semantic_score, hd]

/-- Witness for claim C5 at the whitespace-only text: zero tokens, score
0. -/
theorem semantic_score_formula_witness :
    wordCount "   ".toList = 0 ∧ (calculate_semantic_score "   " "x").1 = 0 :=
  ⟨by decide, (semantic_score_formula "   " "x").2 (by decide)⟩

/-- Claim C6: the semantic scorer emits exactly one suggestion when the
density is below 1, exactly one when it is above 5, and none when the
density lies in the closed interval [1,5] (neither branch fires there). -/
theorem semantic_suggestions_density_bands (text main_keyword : String) :
    ((calculate_semantic_score text main_keyword).2.1).length =
      (if density text main_keyword < 1 then 1
       else if density text main_keyword > 5 then 1 else 0) := by
  simp only [calculate_semantic_score]
  split_ifs <;> simp

/-- Stable descending insertion by boost, the single step of the embedding
of Python `sorted(roadmap, key=lambda x: x["boost"], reverse=True)`.
The inserted element was emitted later than every element already in the
list, so at equal boost it goes after them; it is placed before the first
element whose boost is at most its own. -/
def insertBoostDesc (x : Improvement) : List Improvement → List Improvement
  | [] => [x]
  | y :: ys => if y.boost ≤ x.boost then x :: y :: ys else y :: insertBoostDesc x ys

/-- Stable descending sort by boost (insertion sort; Python `sorted` is
documented stable, and `reverse=True` preserves the original order of
entries that compare equal). -/
def sortBoostDesc : List Improvement → List Improvement
  | [] => []
  | x :: xs => insertBoostDesc x (sortBoostDesc xs)

/-- `roadmap = sorted(onpage_imp + technical_imp + offpage_imp +
semantic_imp, key=lambda x: x["boost"], reverse=True)` from seo_tool.py
lines 231-232. -/
def roadmap (onpage_imp technical_imp offpage_imp semantic_imp :
    List Improvement) : List Improvement :=
  sortBoostDesc (onpage_imp ++ technical_imp ++ offpage_imp ++ semantic_imp)

theorem insertBoostDesc_mem (x : Improvement) (l : List Improvement)
    (b : Improvement) (hb : b ∈ insertBoostDesc x l) : b = x ∨ b ∈ l := by
  induction l with
  | nil => simpa [insertBoostDesc] using hb
  | cons y ys ih =>
    by_cases hle : y.boost ≤ x.boost
    · simp only [insertBoostDesc, if_pos hle] at hb
      rcases List.mem_cons.mp hb with rfl | h2
      · exact Or.inl rfl
      · exact Or.inr h2
    · simp only [insertBoostDesc, if_neg hle] at hb
      rcases List.mem_cons.mp hb with rfl | h2
      · exact Or.inr (List.mem_cons_self _ _)
      · rcases ih h2 with h3 | h3
        · exact Or.inl h3
        · exact Or.inr (List.mem_cons_of_mem _ h3)

theorem insertBoostDesc_pairwise (x : Improvement) (l : List Improvement)
    (hl : l.Pairwise (fun a b => b.boost ≤ a.boost)) :
    (insertBoostDesc x l).Pairwise (fun a b => b.boost ≤ a.boost) := by
  induction l with
  | nil => simp [insertBoostDesc]
  | cons y ys ih =>
    rcases List.pairwise_cons.mp hl with ⟨hy, hys⟩
    by_cases hle : y.boost ≤ x.boost
    · simp only [insertBoostDesc, if_pos hle]
      refine List.pairwise_cons.mpr ⟨?_, hl⟩
      intro b hb
      rcases List.mem_cons.mp hb with rfl | hb2
      · exact hle
      · exact le_trans (hy b hb2) hle
    · simp only [insertBoostDesc, if_neg hle]
      refine List.pairwise_cons.mpr ⟨?_, ih hys⟩
      intro b hb
      rcases insertBoostDesc_mem x ys b hb with rfl | hb2
      · omega
      · exact hy b hb2

theorem insertBoostDesc_filter (x : Improvement) (l : List Improvement)
    (k : Nat) :
    (insertBoostDesc x l).filter (fun e => e.boost == k) =
      if x.boost == k then x :: l.filter (fun e => e.boost == k)
      else l.filter (fun e => e.boost == k) := by
  induction l with
  | nil =>
    by_cases hqx : (x.boost == k) = true <;>
      simp [insertBoostDesc, List.filter_cons, hqx]
  | cons y ys ih =>
    by_cases hle : y.boost ≤ x.boost
    · by_cases hqx : (x.boost == k) = true <;>
        simp [insertBoostDesc, if_pos hle, List.filter_cons, hqx]
    · by_cases hqx : (x.boost == k) = true
      · by_cases hqy : (y.boost == k) = true
        · exfalso
          simp only [beq_iff_eq] at hqx hqy
          omega
        · simp [insertBoostDesc, if_neg hle, List.filter_cons, ih, hqx, hqy]
      · simp [insertBoostDesc, if_neg hle, List.filter_cons, ih, hqx]

theorem sortBoostDesc_pairwise (l : List Improvement) :
    (sortBoostDesc l).Pairwise (fun a b => b.boost ≤ a.boost) := by
  induction l with
  | nil => simp [sortBoostDesc]
  | cons x xs ih => exact insertBoostDesc_pairwise x _ ih

theorem sortBoostDesc_filter (l : List Improvement) (k : Nat) :
    (sortBoostDesc l).filter (fun e => e.boost == k) =
      l.filter (fun e => e.boost == k) := by
  induction l with
  | nil => rfl
  | cons x xs ih =>
    simp only [sortBoostDesc, insertBoostDesc_filter, ih, List.filter_cons]

/-- Claim C8: the roadmap builder concatenates the improvement entries of
the four sub-scorers in the order on-page, technical, off-page, semantic
and sorts them descending by boost with a stable sort: the result is
pairwise descending in boost, and for every boost value the entries
carrying it appear in exactly their original emission order (filter
stability); on boosts [10,15,20,10] the output is [20,15,10,10] with the
two boost-10 entries in their original relative order. -/
theorem roadmap_stable_desc_sort (o t f s : List Improvement) :
    (roadmap o t f s).Pairwise (fun a b => b.boost ≤ a.boost)
    ∧ (∀ k : Nat, (roadmap o t f s).filter (fun e => e.boost == k) =
        (o ++ t ++ f ++ s).filter (fun e => e.boost == k))
    ∧ roadmap [⟨"a", 10⟩] [⟨"b", 15⟩] [⟨"c", 20⟩] [⟨"d", 10⟩] =
        [⟨"c", 20⟩, ⟨"b", 15⟩, ⟨"a", 10⟩, ⟨"d", 10⟩] :=
  ⟨sortBoostDesc_pairwise _, fun k => sortBoostDesc_filter _ k, by decide⟩

/-- Python exceptions that `extract_meta` can raise. -/
inductive PyErr where
  | keyError : PyErr
  | attributeError : PyErr
deriving DecidableEq, Repr

/-- A parsed element as `extract_meta` sees it: its attribute list. -/
structure SoupTag where
  attrs : List (String × String)
deriving DecidableEq, Repr

/-- The slice of the parsed document that `extract_meta` queries.
`title`: `none` when the document has no title element, `some none` when a
title element exists but its `.string` is None (BeautifulSoup returns None
for a title with non-text children), `some (some s)` when the title text
is `s`.  The other three fields hold the first matching element, if any. -/
structure SoupDoc where
  title : Option (Option String)
  descMeta : Option SoupTag
  canonicalLink : Option SoupTag
  viewportMeta : Option SoupTag
deriving DecidableEq, Repr

/-- Python `key in tag.attrs` / `tag[key]` attribute lookup. -/
def getAttrVal (t : SoupTag) (key : String) : Option String :=
  (t.attrs.find? (fun p => p.1 == key)).map (fun p => p.2)

/-- `extract_meta(soup)` from seo_tool.py lines 24-32, with Python
exceptions embedded in `Except`.  The four lookups in source order:
`soup.title.string.strip() if soup.title else ""` (an AttributeError when
`.string` is None), the description meta guarded by
`desc and "content" in desc.attrs`, the canonical link's unguarded
`canonical["href"]` (a KeyError when the attribute is absent), and the
viewport meta guarded like the description. -/
def extract_meta (soup : SoupDoc) : Except PyErr PageMeta := do
  let title ← match soup.title with
    | none => Except.ok ""
    | some none => Except.error PyErr.attributeError
    | some (some s) => Except.ok s.trim
  let desc := match soup.descMeta with
    | some tg =>
      match getAttrVal tg "content" with
      | some v => v
      | none => ""
    | none => ""
  let canonical ← match soup.canonicalLink with
    | none => Except.ok ""
    | some tg =>
      match getAttrVal tg "href" with
      | some v => Except.ok v
      | none => Except.error PyErr.keyError
  let viewport := match soup.viewportMeta with
    | some tg =>
      match getAttrVal tg "content" with
      | some v => v
      | none => ""
    | none => ""
  return { title := title, description := desc, canonical := canonical,
           viewport := viewport }

/-- Claim C9 is contradicted by the code: on a document whose canonical
link element is present but carries no href attribute, `extract_meta`
raises KeyError (the source reads `canonical["href"]` unguarded, unlike
the description and viewport lookups, which first test
`"content" in ... .attrs`), instead of yielding the empty string.  A
document with all four elements missing does return all-empty fields. -/
theorem extract_meta_keyerror_on_bare_canonical :
    extract_meta ⟨none, none, some ⟨[]⟩, none⟩ = Except.error PyErr.keyError
    ∧ extract_meta ⟨none, none, none, none⟩ = Except.ok ⟨"", "", "", ""⟩ :=
  ⟨rfl, rfl⟩
